import Mathlib

/-!
Shallow embedding of the KKUC assistant RAG pipeline
(`app/workflows/simplified_rag_workflow.py`,
`app/workflows/rag/tools/search_tools.py`, `app/tools/rag/query_tools.py`).

External services (Weaviate vector search, the Cohere reranker, the
OpenRouter chat models, the lazily built BM25 index) are modelled as an
explicit environment `Env` of oracles; a failing external call is an
`Except.error` value.  Python floats are modelled as rationals, Python
lists as `List`, `None`-able fields as `Option`.  Each `def` is translated
from the named source function.
-/

namespace KKUC

/-- A retrieval hit, as in `app/tools/rag/__init__.py` (`SearchResult`
dataclass: content, source_url, page_title, score). -/
structure SearchResult where
  content : String
  source_url : String
  page_title : String
  score : ℚ
  deriving DecidableEq, Repr

/-- Message role: `HumanMessage` versus `AIMessage` in the conversation
history lists handed to the workflow. -/
inductive Role where
  | human
  | ai
  deriving DecidableEq, Repr

/-- A conversation message (role plus text content). -/
structure Message where
  role : Role
  content : String
  deriving DecidableEq, Repr

/-- A stored document of the Weaviate collection, as fetched when building
the BM25 index (`SearchTools._get_bm25_index`). -/
structure Doc where
  content : String
  source_url : String
  page_title : String
  deriving DecidableEq, Repr

/-- A raw nearest-neighbour hit from Weaviate, carrying the metadata
distance that `SearchTools.vector_search` converts to a similarity. -/
structure VecHit where
  content : String
  source_url : String
  page_title : String
  distance : ℚ
  deriving DecidableEq, Repr

/-- The workflow state dictionary `RAGState` of
`simplified_rag_workflow.py`. -/
structure RAGState where
  query : String
  rewritten_queries : List String
  search_results : List SearchResult
  validated_url : Option String
  validated_chunks : List SearchResult
  answer : String
  source_url : Option String
  page_title : Option String
  description : Option String
  messages : List Message
  deriving Repr

/-- The dictionary returned by `SimplifiedRAGWorkflow.run`. -/
structure RunResult where
  answer : String
  source_url : Option String
  page_title : Option String
  description : Option String
  deriving DecidableEq, Repr

/-- The environment of external services.  `rewriteLLM` is the
reformulation chat model, `nearVector` the embed-plus-nearest-neighbour
call of `vector_search`, `corpus` the documents fetched for the BM25
index, `bm25IndexFail` whether building that index raises, `termScore`
the per-query-token additive contribution of rank_bm25's
`BM25Okapi.get_scores` to the document at a given corpus index, `rerank`
the Cohere rerank call returning (index, relevance-score) pairs, `gen` the
answer-generation chat model (system prompt, user prompt), and
`unhandled` an exception escaping the compiled graph invocation inside
`run`, when present. -/
structure Env where
  rewriteLLM : String → Except String String
  nearVector : String → Nat → Except String (List VecHit)
  corpus : List Doc
  bm25IndexFail : Bool
  termScore : String → Nat → ℚ
  rerank : String → List String → Nat → Except String (List (Nat × ℚ))
  gen : String → String → Except String String
  unhandled : Option String

/-- The last `n` elements of a list: Python's `l[-n:]`. -/
def lastN {α : Type*} (n : Nat) (l : List α) : List α :=
  l.drop (l.length - n)

/-- Python's `"Bruger" if human else "Assistent"` role labelling used by
both the query rewriter and the answer generator. -/
def roleLabel : Role → String
  | Role.human => "Bruger"
  | Role.ai => "Assistent"

/-- Python's `s[:n]` on a string: the first `n` code points (Python
slices strings by code point, as does this model). -/
def pyTake (s : String) (n : Nat) : String :=
  String.mk (s.data.take n)

/-- Python's `s.strip()`: drop leading and trailing whitespace. -/
def pyStrip (s : String) : String :=
  String.mk (((s.data.dropWhile Char.isWhitespace).reverse.dropWhile Char.isWhitespace).reverse)

/-- The accumulator loop behind `pyTokenize`: walk the characters,
collecting maximal runs of non-whitespace. -/
def tokenizeAux : List Char → List Char → List String
  | [], acc => if acc.isEmpty then [] else [String.mk acc.reverse]
  | c :: cs, acc =>
      if c.isWhitespace then
        if acc.isEmpty then tokenizeAux cs []
        else String.mk acc.reverse :: tokenizeAux cs []
      else tokenizeAux cs (c :: acc)

/-- Python's `query.lower().split()`: lowercase, split on whitespace
runs, dropping empty tokens. -/
def pyTokenize (s : String) : List String :=
  tokenizeAux (s.data.map Char.toLower) []

/-! ## Search tools (`SearchTools`, search_tools.py) -/

/-- BM25 scores of every corpus document for a query
(`bm25_index.get_scores(tokenized_query)` in `bm25_search`): for each
document, the sum over query tokens of the per-token contribution. -/
def bm25Scores (env : Env) (query : String) : List ℚ :=
  (List.range env.corpus.length).map
    (fun i => ((pyTokenize query).map (fun t => env.termScore t i)).sum)

/-- Score lookup `scores[i]` (indices come from `range`, so the default
is never hit). -/
def scoreAt (scores : List ℚ) (i : Nat) : ℚ :=
  scores.getD i 0

/-- Python's `sorted(range(len(scores)), key=lambda i: scores[i],
reverse=True)[:limit]`: a stable descending sort of the indices by score,
then truncation. -/
def bm25TopIndices (scores : List ℚ) (limit : Nat) : List Nat :=
  (List.insertionSort (fun i j => scoreAt scores j ≤ scoreAt scores i)
    (List.range scores.length)).take limit

/-- One iteration of the result loop of `bm25_search`: keep index `i`
only when `scores[idx] > 0`, building a `SearchResult` from the
document. -/
def bm25EntryOf (scores : List ℚ) (docs : List Doc) (i : Nat) : Option SearchResult :=
  if 0 < scoreAt scores i then
    match docs.get? i with
    | some d => some { content := d.content, source_url := d.source_url,
                       page_title := d.page_title, score := scoreAt scores i }
    | none => none
  else none

/-- `SearchTools.bm25_search`: on an index-build error return `[]`;
otherwise score all documents, take the `limit` best indices in
descending score order, and keep those with strictly positive score. -/
def bm25_search (env : Env) (query : String) (limit : Nat) : List SearchResult :=
  if env.bm25IndexFail then []
  else
    (bm25TopIndices (bm25Scores env query) limit).filterMap
      (bm25EntryOf (bm25Scores env query) env.corpus)

/-- `SearchTools.vector_search`: embed the query and fetch nearest
neighbours, mapping `score = 1.0 - distance`; any error yields `[]`. -/
def vector_search (env : Env) (query : String) (limit : Nat) : List SearchResult :=
  match env.nearVector query limit with
  | Except.ok objs =>
      objs.map (fun o => { content := o.content, source_url := o.source_url,
                           page_title := o.page_title, score := 1 - o.distance })
  | Except.error _ => []

/-- The deduplication key `(result.source_url, result.content[:100])`
used by both `hybrid_search` and `_deduplicate_results`. -/
def dedupKey (r : SearchResult) : String × String :=
  (r.source_url, pyTake r.content 100)

/-- The first-seen deduplication loop shared by `hybrid_search` and
`SimplifiedRAGWorkflow._deduplicate_results`: walk the list, keeping an
entry only when its key was not seen before. -/
def dedupLoop : List SearchResult → List (String × String) → List SearchResult
  | [], _ => []
  | r :: rs, seen =>
      if dedupKey r ∈ seen then dedupLoop rs seen
      else r :: dedupLoop rs (dedupKey r :: seen)

/-- `SearchTools.hybrid_search`: run both engines and deduplicate the
concatenation `vector_results + bm25_results` first-seen by
`(source_url, content[:100])`. -/
def hybrid_search (env : Env) (query : String) (limit : Nat) : List SearchResult :=
  dedupLoop (vector_search env query limit ++ bm25_search env query limit) []

/-- `SimplifiedRAGWorkflow._deduplicate_results`: the same first-seen
deduplication applied to the union across query variants. -/
def deduplicate_results (results : List SearchResult) : List SearchResult :=
  dedupLoop results []

/-- Python's `sorted(results, key=lambda x: x.score, reverse=True)`: a
stable descending sort by score (the fallback path of
`rerank_results`). -/
def sortByScoreDesc (results : List SearchResult) : List SearchResult :=
  List.insertionSort (fun a b => SearchResult.score b ≤ SearchResult.score a) results

/-- The loop of `rerank_results` mapping Cohere (index, relevance) pairs
back onto the original results; an out-of-range index is Python's
`IndexError`, caught by the surrounding `except` (hence `none`). -/
def mapRerankHits (results : List SearchResult) : List (Nat × ℚ) → Option (List SearchResult)
  | [] => some []
  | (idx, rel) :: rest =>
      match results.get? idx with
      | some orig =>
          match mapRerankHits results rest with
          | some tail => some ({ orig with score := rel } :: tail)
          | none => none
      | none => none

/-- `SearchTools.rerank_results`: empty input returns `[]` before any
external call; otherwise call the Cohere reranker and map its hits back;
on any error fall back to the original results sorted descending by their
stage-local score, truncated to `top_k`. -/
def rerank_results (env : Env) (query : String) (results : List SearchResult)
    (top_k : Nat) : List SearchResult :=
  if results.isEmpty then []
  else
    match env.rerank query (results.map (fun r => r.content)) top_k with
    | Except.ok hits =>
        match mapRerankHits results hits with
        | some reranked => reranked
        | none => (sortByScoreDesc results).take top_k
    | Except.error _ => (sortByScoreDesc results).take top_k

/-! ## Query tools (`QueryTools.rewrite_single_query`, query_tools.py) -/

/-- The conversation context string built by `rewrite_single_query`: last
6 messages, each as `role: content[:300]`, joined by newlines; empty when
there is no history. -/
def buildContextOf (history : List Message) : String :=
  if history.isEmpty then ""
  else String.intercalate "\n"
    ((lastN 6 history).map (fun m => roleLabel m.role ++ ": " ++ pyTake m.content 300))

/-- The context-free rewriting prompt of `rewrite_single_query` (used
when the conversation context is empty). -/
def simplePromptOf (query : String) : String :=
  "Omformuler denne søgeforespørgsel til en optimal websøgning på dansk.\n\nOriginal: \""
    ++ query
    ++ "\"\n\nGør søgningen klar og specifik for KKUC\x27s hjemmeside.\n\nReturner kun den omformulerede forespørgsel, ingen forklaring:"

/-- The history-aware rewriting prompt of `rewrite_single_query` (used
when the conversation context is non-empty). -/
def contextPromptOf (context : String) (query : String) : String :=
  "Du er en ekspert i at omformulere søgeforespørgsler til websøgning baseret på samtalehistorik.\n\nSamtalehistorik:\n"
    ++ context
    ++ "\n\nNuværende bruger-spørgsmål: \""
    ++ query
    ++ "\"\n\nDIN OPGAVE:\n1. ANALYSER samtalehistorikken for at forstå den AFLEDTE KONTEKST af brugerens spørgsmål\n2. IDENTIFICER hvad brugeren EGENTLIG spørger om baseret på samtaleforløbet\n3. OMFORMULER spørgsmålet til en OPTIMAL websøgning der:\n   - Erstatter ALLE pronominer (hans, hendes, det, den, dem) med konkrete navne/ting fra samtalen\n   - Inkluderer RELEVANT kontekst fra samtalen der gør søgningen mere præcis\n   - Er formuleret som en KLAR, SPECIFIK søgeforespørgsel\n   - Fokuserer på den AFLEDTE BETYDNING af brugerens spørgsmål\n\nEKSEMPLER:\n- Samtale om \"direktør Nicolai Halberg\" → Spørgsmål: \"hvad er hans nummer?\" → Omskrivning: \"Nicolai Halberg telefonnummer kontaktoplysninger\"\n- Samtale om \"behandlingstilbud\" → Spørgsmål: \"hvor kan jeg få det?\" → Omskrivning: \"hvor kan jeg få behandling for stofmisbrug KKUC\"\n- Samtale om \"åbningstider\" → Spørgsmål: \"hvad med weekenden?\" → Omskrivning: \"KKUC åbningstider weekend lørdag søndag\"\n\nKRITISK: Fokuser på den AFLEDTE KONTEKST - hvad brugeren EGENTLIG mener baseret på samtaleforløbet.\n\nReturner KUN den omformulerede søgeforespørgsel, ingen forklaring:"

/-- Which prompt `rewrite_single_query` sends: the history-aware one when
the built context is non-empty, the context-free one otherwise. -/
def rewritePromptOf (query : String) (history : List Message) : String :=
  let context := buildContextOf history
  if context ≠ "" then contextPromptOf context query else simplePromptOf query

/-- `QueryTools.rewrite_single_query`: build the prompt from query and
history, call the rewriting model and strip its output; on any error
return the original query unchanged. -/
def rewrite_single_query (env : Env) (query : String) (history : List Message) : String :=
  match env.rewriteLLM (rewritePromptOf query history) with
  | Except.ok rewritten => pyStrip rewritten
  | Except.error _ => query

/-! ## Workflow steps (`SimplifiedRAGWorkflow`) -/

/-- `SimplifiedRAGWorkflow.step1_rewrite_query`: always call
`rewrite_single_query` (with whatever history is in the state) and store
`[query, rewritten_query]`. -/
def step1_rewrite_query (env : Env) (st : RAGState) : RAGState :=
  let query := st.query
  let rewritten_query := rewrite_single_query env query st.messages
  { st with rewritten_queries := [query, rewritten_query] }

/-- `SimplifiedRAGWorkflow.step2_hybrid_search_rerank`: hybrid-search
every variant with limit 15, concatenate, deduplicate, then rerank
against the original query with top_k 15. -/
def step2_hybrid_search_rerank (env : Env) (st : RAGState) : RAGState :=
  let all_results := (st.rewritten_queries.map (fun q => hybrid_search env q 15)).flatten
  let unique_results := deduplicate_results all_results
  let reranked_results := rerank_results env st.query unique_results 15
  { st with search_results := reranked_results }

/-- The fixed no-information fallback text of
`step3_validate_and_generate`. -/
def fallbackText : String :=
  "Jeg kunne desværre ikke finde relevant information om dette emne på KKUC\x27s hjemmeside."

/-- The fixed apology of the generation-failure path of
`_generate_answer_with_selection`. -/
def generationApology : String :=
  "Beklager, jeg kunne ikke generere et svar. Prøv venligst igen."

/-- The fixed apology of the exception path of
`SimplifiedRAGWorkflow.run`. -/
def orchestratorApology : String :=
  "Beklager, der opstod en fejl. Prøv venligst igen."

/-- The system prompt handed to the generation model. -/
def systemPrompt : String :=
  "Du er en hjælpsom og empatisk AI-assistent for KKUC (Københavns Kommunes Rusmiddelcenter).\n\nDin opgave er at hjælpe brugere med spørgsmål om stofmisbrug, alkoholmisbrug og behandlingsmuligheder.\n\nVigtige retningslinjer:\n- Svar altid på dansk\n- Vær MEGET empatisk, varm og ikke-dømmende 💙\n- Brug emojis for at gøre svaret mere tilgængeligt\n- Fokuser DIREKTE på brugerens spørgsmål\n- Hold svarene kortere og mere præcise\n- Brug kun information fra den givne kontekst\n- Strukturer svaret med relevante overskrifter når det giver mening"

/-- One formatted chunk block of `_generate_answer_with_selection`
(`enumerate(chunks, 1)` numbering). -/
def chunkBlock (i : Nat) (chunk : SearchResult) : String :=
  "[CHUNK " ++ toString i ++ "]\n"
    ++ "Titel: " ++ chunk.page_title ++ "\n"
    ++ "URL: " ++ chunk.source_url ++ "\n"
    ++ "Indhold: " ++ chunk.content ++ "\n"

/-- The web context of `_generate_answer_with_selection`: chunk blocks
joined by a separator line. -/
def webContextOf (chunks : List SearchResult) : String :=
  String.intercalate "\n---\n" (chunks.enum.map (fun p => chunkBlock (p.1 + 1) p.2))

/-- The conversation context of `_generate_answer_with_selection`: last
10 messages as `role: content` joined by blank lines; empty without
history. -/
def conversationContextOf (history : List Message) : String :=
  if history.isEmpty then ""
  else String.intercalate "\n\n"
    ((lastN 10 history).map (fun m => roleLabel m.role ++ ": " ++ m.content))

/-- The user prompt built by `_generate_answer_with_selection` from the
query, the chunk list and the conversation history. -/
def genPromptOf (query : String) (chunks : List SearchResult) (history : List Message) : String :=
  let conversation_context := conversationContextOf history
  let web_context := webContextOf chunks
  "Du får to informationskilder:\n1. Informationsstykker fra KKUC\x27s hjemmeside (web søgning)\n2. Tidligere samtalehistorik\n\nDin opgave er at besvare brugerens spørgsmål ved at bruge BEGGE kilder:\n\nSAMTALEHISTORIK:\n"
    ++ (if conversation_context = "" then "Ingen tidligere samtale" else conversation_context)
    ++ "\n\nWEB SØGNING - Informationsstykker fra KKUC\x27s hjemmeside:\n"
    ++ web_context
    ++ "\n\nBrugerens spørgsmål: "
    ++ query
    ++ "\n\nSÅDAN BESVARER DU:\n\n1. HVIS spørgsmålet kan besvares fra SAMTALEHISTORIKKEN (f.eks. \"hvad var det nummer?\", \"fortæl mig mere om det\"):\n   - Besvar DIREKTE baseret på samtalehistorikken\n   - Inkluder IKKE noget link\n   - Vær kort og præcis (1-2 afsnit)\n   - Brug emojis 💙\n\n2. HVIS spørgsmålet kræver NY information fra KKUC\x27s hjemmeside:\n   - Vurder om NOGEN af web chunks er relevante\n   - HVIS JA: Start dit svar med linket til den MEST relevante chunk: 🔗 [Titel](URL)\n   - Saml information fra ALLE relevante chunks\n   - Giv et KORT, empatisk svar (2-3 afsnit) med emojis 💙\n   - HVIS NEJ: Skriv \"Jeg har desværre ikke information om dette emne på KKUC\x27s hjemmeside. 💙\"\n\n3. HVIS spørgsmålet kan besvares ved at KOMBINERE begge kilder:\n   - Brug information fra samtalen som kontekst\n   - Tilføj ny information fra web chunks\n   - Inkluder link hvis du bruger web chunks: 🔗 [Titel](URL)\n\nKRITISK VIGTIGT - ANTI-HALLUCINATION REGLER:\n- Besvar brugerens spørgsmål DIREKTE - gå lige til sagen\n- Brug BÅDE samtalehistorik og web chunks når det er relevant\n- Hold svaret KORT (1-3 afsnit) men informativt\n- Vær empatisk og brug emojis 💙 🌟 ✨ 💪\n- GENERER ALDRIG svar baseret på din egen viden - KUN fra de givne kilder\n- VERIFICER at al information kommer DIREKTE fra chunks eller samtalehistorik\n- Hvis du inkluderer et link, kopier URL\x27en PRÆCIST fra den mest relevante chunk\n- OPFIND ALDRIG telefonnumre, adresser, navne eller andre fakta\n- Hvis informationen ikke er i kilderne, sig ÆRLIGT at du ikke har den information\n- DOBBELT-TJEK at alle fakta (numre, navne, adresser) matcher præcist med kilderne\n\nSvar:"

/-- The prompt actually sent for a given reranked result list: step 3
passes `search_results[:10]` as the chunk list. -/
def step3PromptOf (query : String) (results : List SearchResult) (history : List Message) : String :=
  genPromptOf query (results.take 10) history

/-- `SimplifiedRAGWorkflow._generate_answer_with_selection`: stream the
generation model on (system prompt, built prompt), join and strip; on any
error return the fixed generation apology. -/
def generate_answer_with_selection (env : Env) (query : String) (chunks : List SearchResult)
    (history : List Message) : String :=
  match env.gen systemPrompt (genPromptOf query chunks history) with
  | Except.ok answer => pyStrip answer
  | Except.error _ => generationApology

/-- Python's `"🔗" in answer`: whether the answer text embeds a source
link (the only place a citation can appear). -/
def hasLink (s : String) : Bool :=
  s.data.contains '🔗'

/-- `SimplifiedRAGWorkflow.step3_validate_and_generate`: with no search
results, emit the fixed fallback text and clear every structured field;
otherwise generate from the top 10 chunks and the history, still leaving
all structured source fields `None` (the link lives inside the answer
text). -/
def step3_validate_and_generate (env : Env) (st : RAGState) : RAGState :=
  if st.search_results.isEmpty then
    { st with answer := fallbackText, source_url := none, page_title := none,
              description := none, validated_url := none, validated_chunks := [] }
  else
    let top_chunks := st.search_results.take 10
    let answer := generate_answer_with_selection env st.query top_chunks st.messages
    { st with answer := answer, source_url := none, page_title := none,
              description := none, validated_url := none, validated_chunks := top_chunks }

/-- The initial `RAGState` built inside `SimplifiedRAGWorkflow.run`. -/
def initialState (user_query : String) (history : List Message) : RAGState :=
  { query := user_query, rewritten_queries := [], search_results := [],
    validated_url := none, validated_chunks := [], answer := "",
    source_url := none, page_title := none, description := none,
    messages := history }

/-- `self.graph.invoke(initial_state)`: the three steps in sequence, or
the exception the environment injects into the graph invocation. -/
def runGraph (env : Env) (st : RAGState) : Except String RAGState :=
  match env.unhandled with
  | some e => Except.error e
  | none =>
      Except.ok (step3_validate_and_generate env
        (step2_hybrid_search_rerank env (step1_rewrite_query env st)))

/-- `SimplifiedRAGWorkflow.run`: invoke the graph and extract the four
result fields; any exception is caught and converted into the fixed
orchestrator apology with all structured fields `None`. -/
def run (env : Env) (user_query : String) (history : List Message) : RunResult :=
  match runGraph env (initialState user_query history) with
  | Except.ok st =>
      { answer := st.answer, source_url := st.source_url,
        page_title := st.page_title, description := st.description }
  | Except.error _ =>
      { answer := orchestratorApology, source_url := none,
        page_title := none, description := none }

/-! ## Concrete environments used by witnesses and counterexamples -/

/-- An environment in which every external service fails and the corpus
is empty. -/
def defaultEnv : Env :=
  { rewriteLLM := fun _ => Except.error "down",
    nearVector := fun _ _ => Except.error "down",
    corpus := [],
    bm25IndexFail := false,
    termScore := fun _ _ => 0,
    rerank := fun _ _ _ => Except.error "down",
    gen := fun _ _ => Except.error "down",
    unhandled := none }

/-- A corpus document sharing its URL and full content with the vector
hit of `c2Env`. -/
def c2Doc : Doc :=
  { content := "faelles indhold om behandling",
    source_url := "https://kkuc.dk/a", page_title := "Side A" }

/-- An environment in which the semantic and the lexical engine return
the same passage (same URL, same content, hence the same dedup key), with
vector similarity 1 and BM25 score 7. -/
def c2Env : Env :=
  { defaultEnv with
    nearVector := fun _ _ => Except.ok
      [{ content := "faelles indhold om behandling",
         source_url := "https://kkuc.dk/a", page_title := "Side A", distance := 0 }],
    corpus := [c2Doc],
    termScore := fun _ _ => 7 }

/-- An environment whose reformulation model always answers
"omskrevet". -/
def c3Env : Env :=
  { defaultEnv with rewriteLLM := fun _ => Except.ok "omskrevet" }

/-- An environment injecting an unhandled exception into the graph
invocation. -/
def crashEnv : Env :=
  { defaultEnv with unhandled := some "boom" }

/-- A low-scoring candidate used to exercise the rerank fallback sort. -/
def c6r1 : SearchResult :=
  { content := "om alkohol", source_url := "https://kkuc.dk/1",
    page_title := "Alkohol", score := 1 }

/-- A high-scoring candidate used to exercise the rerank fallback sort. -/
def c6r2 : SearchResult :=
  { content := "om stoffer", source_url := "https://kkuc.dk/2",
    page_title := "Stoffer", score := 2 }

/-- A result fixture for the prompt-noninterference witness. -/
def c8Hit (tag : String) : SearchResult :=
  { content := tag, source_url := "https://kkuc.dk/x", page_title := tag, score := 1 }

/-- A message fixture for the prompt-noninterference witness. -/
def c8Msg (tag : String) : Message :=
  { role := Role.human, content := tag }

/-- The semantic-engine entry of `c2Env` as it appears after the
`score = 1 - distance` conversion. -/
def c2Sem : SearchResult :=
  { content := "faelles indhold om behandling",
    source_url := "https://kkuc.dk/a", page_title := "Side A", score := 1 }

/-- The lexical-engine entry of `c2Env` (BM25 score 7, same dedup key as
`c2Sem`). -/
def c2Lex : SearchResult :=
  { content := "faelles indhold om behandling",
    source_url := "https://kkuc.dk/a", page_title := "Side A", score := 7 }

instance : IsTotal SearchResult (fun a b => SearchResult.score b ≤ SearchResult.score a) :=
  ⟨fun _ _ => le_total _ _⟩

instance : IsTrans SearchResult (fun a b => SearchResult.score b ≤ SearchResult.score a) :=
  ⟨fun _ _ _ h1 h2 => le_trans h2 h1⟩

/-! ## Helper lemmas -/

/-- Every entry retained by the first-seen deduplication loop has a key
outside `seen`, and is the first element of the input with its key. -/
theorem mem_dedupLoop {l : List SearchResult} {seen : List (String × String)} {r : SearchResult}
    (h : r ∈ dedupLoop l seen) :
    dedupKey r ∉ seen ∧ l.find? (fun x => decide (dedupKey x = dedupKey r)) = some r := by
  induction l generalizing seen with
  | nil => simp [dedupLoop] at h
  | cons a tl ih =>
    rw [dedupLoop] at h
    by_cases hm : dedupKey a ∈ seen
    · rw [if_pos hm] at h
      obtain ⟨hns, hf⟩ := ih h
      have hfa : decide (dedupKey a = dedupKey r) = false := by
        simp only [decide_eq_false_iff_not]
        intro he
        exact hns (he ▸ hm)
      refine ⟨hns, ?_⟩
      rw [List.find?_cons, hfa]
      exact hf
    · rw [if_neg hm] at h
      rcases List.mem_cons.mp h with rfl | h
      · refine ⟨hm, ?_⟩
        rw [List.find?_cons, show decide (dedupKey r = dedupKey r) = true from by simp]
      · obtain ⟨hns, hf⟩ := ih h
        simp only [List.mem_cons, not_or] at hns
        have hfa : decide (dedupKey a = dedupKey r) = false := by
          simp only [decide_eq_false_iff_not]
          intro he
          exact hns.1 he.symm
        refine ⟨hns.2, ?_⟩
        rw [List.find?_cons, hfa]
        exact hf

/-- Taking the last 10 elements yields the empty list exactly on the
empty list. -/
theorem lastN_eq_nil_iff {α : Type*} {l : List α} : lastN 10 l = [] ↔ l = [] := by
  unfold lastN
  rw [List.drop_eq_nil_iff]
  constructor
  · intro h
    cases l with
    | nil => rfl
    | cons a tl => simp only [List.length_cons] at h; omega
  · intro h
    subst h
    simp

/-- The if-then-else inside `bm25_search` only emits results whose score
is the strictly positive score of the chosen index. -/
theorem bm25EntryOf_spec {scores : List ℚ} {docs : List Doc} {i : Nat} {r : SearchResult}
    (h : bm25EntryOf scores docs i = some r) :
    r.score = scoreAt scores i ∧ 0 < scoreAt scores i := by
  unfold bm25EntryOf at h
  split at h
  · rename_i hpos
    split at h
    · injection h with h
      subst h
      exact ⟨rfl, hpos⟩
    · exact absurd h (by simp)
  · exact absurd h (by simp)

/-- Both branches of step 3 clear the three structured source fields. -/
theorem step3_fields_none (env : Env) (st : RAGState) :
    (step3_validate_and_generate env st).source_url = none
    ∧ (step3_validate_and_generate env st).page_title = none
    ∧ (step3_validate_and_generate env st).description = none := by
  unfold step3_validate_and_generate
  cases hE : st.search_results.isEmpty <;> simp

/-- Tokenizing the counterexample query yields the single token. -/
theorem c2_tokenize_eval : pyTokenize "behandling" = ["behandling"] := by decide

/-- The BM25 score vector of `c2Env` for the counterexample query. -/
theorem c2_scores_eval : bm25Scores c2Env "behandling" = [7] := by
  simp [bm25Scores, c2Env, defaultEnv, c2_tokenize_eval]

/-- The lexical engine of `c2Env` returns exactly the lexical entry. -/
theorem c2_bm25_eval : bm25_search c2Env "behandling" 15 = [c2Lex] := by
  unfold bm25_search
  rw [c2_scores_eval]
  decide

/-- The semantic engine of `c2Env` returns exactly the semantic entry. -/
theorem c2_vec_eval : vector_search c2Env "behandling" 15 = [c2Sem] := by
  simp only [vector_search, c2Env, defaultEnv, List.map_cons, List.map_nil, c2Sem]
  norm_num

/-- The hybrid retriever of `c2Env` keeps only the semantic entry. -/
theorem c2_hybrid_eval : hybrid_search c2Env "behandling" 15 = [c2Sem] := by
  unfold hybrid_search
  rw [c2_vec_eval, c2_bm25_eval]
  decide

/-! ## Claim theorems -/

/-- C1: with an empty ranked-result list, step 3 returns the exact fixed
fallback text with all structured fields cleared, for every query and
history in the state; the result does not depend on the environment (in
particular the generation model is not consulted), and the fallback text
embeds no source link. -/
theorem C1_empty_results_fixed_fallback (env env' : Env) (st : RAGState)
    (h : st.search_results = []) :
    step3_validate_and_generate env st =
      { st with answer := fallbackText, source_url := none, page_title := none,
                description := none, validated_url := none, validated_chunks := [] }
    ∧ step3_validate_and_generate env' st = step3_validate_and_generate env st
    ∧ hasLink fallbackText = false := by
  refine ⟨?_, ?_, by decide⟩ <;> simp [step3_validate_and_generate, h]

/-- C1 witness: the fallback equality at a concrete state, compared
across two different environments. -/
theorem C1_empty_results_fixed_fallback_witness :
    step3_validate_and_generate defaultEnv (initialState "hvad er KKUC?" []) =
      { initialState "hvad er KKUC?" [] with
        answer := fallbackText, source_url := none, page_title := none,
        description := none, validated_url := none, validated_chunks := [] }
    ∧ step3_validate_and_generate c3Env (initialState "hvad er KKUC?" []) =
        step3_validate_and_generate defaultEnv (initialState "hvad er KKUC?" [])
    ∧ hasLink fallbackText = false :=
  C1_empty_results_fixed_fallback defaultEnv c3Env (initialState "hvad er KKUC?" []) rfl

/-- C2 counterexample: in `c2Env` both engines return the same passage
(equal dedup key), the lexical score is 7 and the semantic score is 1,
yet `hybrid_search` retains the entry with score 1 — the semantic
engine's — because vector results are iterated first, refuting the
claimed lexical-before-semantic order. -/
theorem C2_counterexample :
    hybrid_search c2Env "behandling" 15 = [c2Sem]
    ∧ bm25_search c2Env "behandling" 15 = [c2Lex]
    ∧ vector_search c2Env "behandling" 15 = [c2Sem]
    ∧ dedupKey c2Sem = dedupKey c2Lex
    ∧ SearchResult.score c2Sem ≠ SearchResult.score c2Lex := by
  refine ⟨c2_hybrid_eval, c2_bm25_eval, c2_vec_eval, by decide, by decide⟩

/-- C2 amended: deduplication keeps the first-seen entry per
`(source_url, content[:100])` key under the iteration order
semantic-before-lexical (vector results precede BM25 results inside
`hybrid_search`), so whenever the semantic engine returned a duplicate
key, the retained entry — and hence the retained score — is the semantic
engine's; the workflow-level `_deduplicate_results` likewise keeps the
first-seen entry in the given input (variant) order. -/
theorem C2_amended_first_seen_semantic_wins (env : Env) (q : String) (limit : Nat)
    (r v r' : SearchResult) (l : List SearchResult)
    (h : r ∈ hybrid_search env q limit)
    (hv : v ∈ vector_search env q limit) (hkey : dedupKey v = dedupKey r)
    (h' : r' ∈ deduplicate_results l) :
    (vector_search env q limit ++ bm25_search env q limit).find?
        (fun x => decide (dedupKey x = dedupKey r)) = some r
    ∧ r ∈ vector_search env q limit
    ∧ l.find? (fun x => decide (dedupKey x = dedupKey r')) = some r' := by
  have h0 : r ∈ dedupLoop (vector_search env q limit ++ bm25_search env q limit) [] := h
  have h0' : r' ∈ dedupLoop l [] := h'
  have h1 := (mem_dedupLoop h0).2
  refine ⟨h1, ?_, (mem_dedupLoop h0').2⟩
  have hs : ((vector_search env q limit).find?
      (fun x => decide (dedupKey x = dedupKey r))).isSome := by
    rw [List.find?_isSome]
    exact ⟨v, hv, by simp [hkey]⟩
  obtain ⟨y, hy⟩ := Option.isSome_iff_exists.mp hs
  rw [List.find?_append, hy, Option.or_some] at h1
  injection h1 with h1
  subst h1
  exact List.mem_of_find?_eq_some hy

/-- C2 amended witness: the retained entry of `c2Env` is characterised as
the first-seen vector entry. -/
theorem C2_amended_first_seen_semantic_wins_witness :
    (vector_search c2Env "behandling" 15 ++ bm25_search c2Env "behandling" 15).find?
        (fun x => decide (dedupKey x = dedupKey c2Sem)) = some c2Sem
    ∧ c2Sem ∈ vector_search c2Env "behandling" 15
    ∧ [c6r1].find? (fun x => decide (dedupKey x = dedupKey c6r1)) = some c6r1 :=
  C2_amended_first_seen_semantic_wins c2Env "behandling" 15 c2Sem c2Sem c6r1 [c6r1]
    (by rw [c2_hybrid_eval]; exact List.mem_singleton.mpr rfl)
    (by rw [c2_vec_eval]; exact List.mem_singleton.mpr rfl)
    rfl (by decide)

/-- C3 counterexample: with an empty history the workflow still calls the
reformulation model; under `c3Env` (whose model answers "omskrevet"),
step 1 stores the two-element list `[query, "omskrevet"]` — not the
claimed `[query]`. -/
theorem C3_counterexample :
    (step1_rewrite_query c3Env (initialState "hvad er KKUC" [])).rewritten_queries
      = ["hvad er KKUC", "omskrevet"]
    ∧ (["hvad er KKUC", "omskrevet"] : List String) ≠ ["hvad er KKUC"] := by
  refine ⟨by decide, by decide⟩

/-- C3 amended: with an empty history, step 1 still invokes the
reformulation model once, with the context-free prompt (not the
history-aware one), and returns the two-element list
`[query, rewrite_single_query query []]`; only a failing call makes the
second element the original query again. -/
theorem C3_amended_empty_history_still_reformulates (env : Env) (st : RAGState)
    (h : st.messages = []) :
    (step1_rewrite_query env st).rewritten_queries
      = [st.query, rewrite_single_query env st.query []]
    ∧ rewritePromptOf st.query [] = simplePromptOf st.query := by
  constructor
  · simp [step1_rewrite_query, h]
  · simp [rewritePromptOf, buildContextOf]

/-- C3 amended witness at query "hej" with the succeeding rewrite
model. -/
theorem C3_amended_empty_history_still_reformulates_witness :
    (step1_rewrite_query c3Env (initialState "hej" [])).rewritten_queries
      = ["hej", rewrite_single_query c3Env "hej" []]
    ∧ rewritePromptOf "hej" [] = simplePromptOf "hej" :=
  C3_amended_empty_history_still_reformulates c3Env (initialState "hej" []) rfl

/-- C4 counterexample: when the reformulation call fails, step 1 returns
the two-element list `[query, query]` — the original duplicated — not the
claimed single-element `[query]`. -/
theorem C4_counterexample :
    (step1_rewrite_query defaultEnv (initialState "kontakt" [])).rewritten_queries
      = ["kontakt", "kontakt"]
    ∧ (["kontakt", "kontakt"] : List String) ≠ ["kontakt"] := by
  refine ⟨by decide, by decide⟩

/-- C4 amended: if the reformulation call fails, `rewrite_single_query`
returns the unmodified original query (the total embedding raises
nothing), so the stage's variant list is `[query, query]`: every element
is the original query, but the list has two elements. -/
theorem C4_amended_failure_duplicates_query (env : Env) (st : RAGState) (e : String)
    (h : env.rewriteLLM (rewritePromptOf st.query st.messages) = Except.error e) :
    (step1_rewrite_query env st).rewritten_queries = [st.query, st.query] := by
  simp [step1_rewrite_query, rewrite_single_query, h]

/-- C4 amended witness with the always-failing environment. -/
theorem C4_amended_failure_duplicates_query_witness :
    (step1_rewrite_query defaultEnv (initialState "hvor ligger KKUC" [])).rewritten_queries
      = ["hvor ligger KKUC", "hvor ligger KKUC"] :=
  C4_amended_failure_duplicates_query defaultEnv (initialState "hvor ligger KKUC" []) "down" rfl

/-- C5 counterexample: the orchestrator's catch-all apology text differs
from the text of the synthesizer's generation-failure path, refuting "the
same fixed apology answer text". -/
theorem C5_counterexample :
    (run crashEnv "spørgsmål" []).answer = orchestratorApology
    ∧ generate_answer_with_selection defaultEnv "spørgsmål" [] [] = generationApology
    ∧ orchestratorApology ≠ generationApology := by
  refine ⟨rfl, rfl, by decide⟩

/-- C5 amended: any unhandled exception escaping the pipeline is caught
by `run` and converted into a well-formed result holding the fixed
orchestrator apology (a different fixed text from the generation-failure
apology) with all structured fields `None`; no error propagates. -/
theorem C5_amended_catch_all_fixed_apology (env : Env) (q : String) (hist : List Message)
    (e : String) (h : env.unhandled = some e) :
    run env q hist = { answer := orchestratorApology, source_url := none,
                       page_title := none, description := none } := by
  unfold run runGraph
  rw [h]

/-- C5 amended witness on the crashing environment. -/
theorem C5_amended_catch_all_fixed_apology_witness :
    run crashEnv "hej" [] = { answer := orchestratorApology, source_url := none,
                              page_title := none, description := none } :=
  C5_amended_catch_all_fixed_apology crashEnv "hej" [] "boom" rfl

/-- C6: when the external reranker call fails on a non-empty candidate
list, `rerank_results` returns the original candidates stably sorted
descending by their stage-local score and truncated to `top_k` — hence
sorted and of length at most `top_k` — and raises nothing; an empty
candidate list yields `[]` under every environment, so no external model
can have been consulted. -/
theorem C6_rerank_failure_and_empty (env env' : Env) (q : String)
    (results : List SearchResult) (top_k : Nat) (e : String)
    (hne : results ≠ [])
    (h : env.rerank q (results.map (fun r => r.content)) top_k = Except.error e) :
    rerank_results env q results top_k = (sortByScoreDesc results).take top_k
    ∧ List.Sorted (fun a b : SearchResult => SearchResult.score b ≤ SearchResult.score a)
        (rerank_results env q results top_k)
    ∧ (rerank_results env q results top_k).length ≤ top_k
    ∧ rerank_results env' q [] top_k = [] := by
  have hE : results.isEmpty = false := by
    cases results with
    | nil => exact absurd rfl hne
    | cons a tl => rfl
  have heq : rerank_results env q results top_k = (sortByScoreDesc results).take top_k := by
    unfold rerank_results
    rw [hE, h]
    rfl
  have hsorted : List.Sorted (fun a b : SearchResult => SearchResult.score b ≤ SearchResult.score a)
      (sortByScoreDesc results) := List.sorted_insertionSort _ _
  refine ⟨heq, ?_, ?_, rfl⟩
  · rw [heq]
    exact List.Pairwise.sublist (List.take_sublist _ _) hsorted
  · rw [heq]
    exact List.length_take_le _ _

/-- C6 witness: two candidates, a failing reranker, `top_k = 1`. -/
theorem C6_rerank_failure_and_empty_witness :
    rerank_results defaultEnv "hvad" [c6r1, c6r2] 1 = (sortByScoreDesc [c6r1, c6r2]).take 1
    ∧ List.Sorted (fun a b : SearchResult => SearchResult.score b ≤ SearchResult.score a)
        (rerank_results defaultEnv "hvad" [c6r1, c6r2] 1)
    ∧ (rerank_results defaultEnv "hvad" [c6r1, c6r2] 1).length ≤ 1
    ∧ rerank_results c3Env "hvad" [] 1 = [] :=
  C6_rerank_failure_and_empty defaultEnv c3Env "hvad" [c6r1, c6r2] 1 "down" (by decide) rfl

/-- C7: BM25 search returns only results with strictly positive score, at
most `limit` of them, sorted descending by score. -/
theorem C7_bm25_positive_bounded_sorted (env : Env) (q : String) (limit : Nat) :
    (∀ r ∈ bm25_search env q limit, 0 < r.score)
    ∧ (bm25_search env q limit).length ≤ limit
    ∧ List.Sorted (fun a b : SearchResult => SearchResult.score b ≤ SearchResult.score a)
        (bm25_search env q limit) := by
  unfold bm25_search
  cases hf : env.bm25IndexFail with
  | true => simp
  | false =>
    simp only [Bool.false_eq_true, if_false]
    refine ⟨?_, ?_, ?_⟩
    · intro r hr
      obtain ⟨i, _, hsome⟩ := List.mem_filterMap.mp hr
      obtain ⟨hsc, hpos⟩ := bm25EntryOf_spec hsome
      rw [hsc]
      exact hpos
    · refine le_trans (List.length_filterMap_le _ _) ?_
      unfold bm25TopIndices
      exact List.length_take_le _ _
    · haveI : IsTotal Nat
          (fun i j => scoreAt (bm25Scores env q) j ≤ scoreAt (bm25Scores env q) i) :=
        ⟨fun _ _ => le_total _ _⟩
      haveI : IsTrans Nat
          (fun i j => scoreAt (bm25Scores env q) j ≤ scoreAt (bm25Scores env q) i) :=
        ⟨fun _ _ _ h1 h2 => le_trans h2 h1⟩
      have hs : List.Pairwise
          (fun i j => scoreAt (bm25Scores env q) j ≤ scoreAt (bm25Scores env q) i)
          (bm25TopIndices (bm25Scores env q) limit) := by
        unfold bm25TopIndices
        exact List.Pairwise.sublist (List.take_sublist _ _) (List.sorted_insertionSort _ _)
      refine List.Pairwise.filterMap _ ?_ hs
      intro i j hij b hb b' hb'
      obtain ⟨hsc, _⟩ := bm25EntryOf_spec (Option.mem_def.mp hb)
      obtain ⟨hsc', _⟩ := bm25EntryOf_spec (Option.mem_def.mp hb')
      rw [hsc', hsc]
      exact hij

/-- C8: the generation prompt depends only on the first 10 reranked
results and the last 10 history messages — two runs agreeing there get
the identical prompt, and, with the generation call held fixed, the
identical generated answer (the system prompt is a constant). -/
theorem C8_prompt_noninterference (env : Env) (q : String)
    (r1 r2 : List SearchResult) (h1 h2 : List Message)
    (hr : r1.take 10 = r2.take 10) (hh : lastN 10 h1 = lastN 10 h2) :
    step3PromptOf q r1 h1 = step3PromptOf q r2 h2
    ∧ generate_answer_with_selection env q (r1.take 10) h1
      = generate_answer_with_selection env q (r2.take 10) h2 := by
  have hemp : h1.isEmpty = h2.isEmpty := by
    cases h1 with
    | nil =>
      have h2nil : h2 = [] := lastN_eq_nil_iff.mp hh.symm
      rw [h2nil]
    | cons a t1 =>
      cases h2 with
      | nil =>
        have : (a :: t1 : List Message) = [] := lastN_eq_nil_iff.mp hh
        cases this
      | cons b t2 => rfl
  have hcc : conversationContextOf h1 = conversationContextOf h2 := by
    unfold conversationContextOf
    rw [hemp, hh]
  constructor
  · simp only [step3PromptOf, genPromptOf]
    rw [hr, hcc]
  · simp only [generate_answer_with_selection, genPromptOf]
    rw [hr, hcc]

/-- C8 witness: 11-element reranked lists differing only in their 11th
entry, and 11-message histories differing only in their oldest
message. -/
theorem C8_prompt_noninterference_witness :
    step3PromptOf "hvad" (List.replicate 10 (c8Hit "ens") ++ [c8Hit "kun-a"])
        (c8Msg "ens-a" :: List.replicate 10 (c8Msg "ens"))
      = step3PromptOf "hvad" (List.replicate 10 (c8Hit "ens") ++ [c8Hit "kun-b"])
        (c8Msg "ens-b" :: List.replicate 10 (c8Msg "ens"))
    ∧ generate_answer_with_selection defaultEnv "hvad"
        ((List.replicate 10 (c8Hit "ens") ++ [c8Hit "kun-a"]).take 10)
        (c8Msg "ens-a" :: List.replicate 10 (c8Msg "ens"))
      = generate_answer_with_selection defaultEnv "hvad"
        ((List.replicate 10 (c8Hit "ens") ++ [c8Hit "kun-b"]).take 10)
        (c8Msg "ens-b" :: List.replicate 10 (c8Msg "ens")) :=
  C8_prompt_noninterference defaultEnv "hvad"
    (List.replicate 10 (c8Hit "ens") ++ [c8Hit "kun-a"])
    (List.replicate 10 (c8Hit "ens") ++ [c8Hit "kun-b"])
    (c8Msg "ens-a" :: List.replicate 10 (c8Msg "ens"))
    (c8Msg "ens-b" :: List.replicate 10 (c8Msg "ens"))
    (by decide) (by decide)

/-- C9: on every path of `run` — injected exception, empty results,
generation — the returned dictionary has `source_url`, `page_title` and
`description` equal to `None`. -/
theorem C9_structured_fields_always_none (env : Env) (q : String) (hist : List Message) :
    (run env q hist).source_url = none
    ∧ (run env q hist).page_title = none
    ∧ (run env q hist).description = none := by
  unfold run runGraph
  cases hu : env.unhandled with
  | some e => exact ⟨rfl, rfl, rfl⟩
  | none => exact step3_fields_none env _

/-- C10: a query whose lowercased whitespace tokenization is empty gives
every document the BM25 score 0 (the score vector is all zeros), so the
strictly-positive filter leaves the result list empty. -/
theorem C10_empty_tokenization_no_results (env : Env) (q : String) (limit : Nat)
    (h : pyTokenize q = []) :
    bm25_search env q limit = []
    ∧ bm25Scores env q = List.replicate env.corpus.length 0 := by
  have hz : bm25Scores env q = List.replicate env.corpus.length 0 := by
    unfold bm25Scores
    rw [h]
    simp [List.map_const']
  have hat : ∀ i, scoreAt (bm25Scores env q) i = 0 := by
    intro i
    rw [hz]
    simp only [scoreAt, List.getD_eq_getElem?_getD, List.getElem?_replicate]
    split <;> rfl
  refine ⟨?_, hz⟩
  unfold bm25_search
  cases hf : env.bm25IndexFail with
  | true => rfl
  | false =>
    simp only [Bool.false_eq_true, if_false]
    rw [List.filterMap_eq_nil_iff]
    intro i _
    unfold bm25EntryOf
    rw [if_neg]
    rw [hat i]
    exact lt_irrefl 0

/-- C10 witness: the all-whitespace query against the one-document
corpus of `c2Env` whose term scores are positive. -/
theorem C10_empty_tokenization_no_results_witness :
    bm25_search c2Env "   " 15 = []
    ∧ bm25Scores c2Env "   " = List.replicate (List.length c2Env.corpus) 0 :=
  C10_empty_tokenization_no_results c2Env "   " 15 (by decide)

end KKUC
